import Mathlib

/-!
Verification development for ControlMyMonitorGUI.py: a tkinter front-end
that shells out to ControlMyMonitor.exe to read and write monitor VCP
settings.  The Python source is embedded shallowly: the tkinter variables
(`monitor_var`, `feature_var`, `current_value_var`, the slider and the two
labels) become fields of an explicit `AppState` record, and each
subprocess invocation is mediated by an environment function
`env : List String → ProcResult` mapping the argument list to the outcome
of `subprocess.run` (a completed process with an exit code and stderr
text, a `FileNotFoundError`, or some other exception).  Every function
additionally returns the list of argument lists it handed to
`subprocess.run`, in order, so that "number of external invocations" is
statable.  A handler that would let a Python exception escape (only
possible as a `KeyError` on the static registries) returns `none`.
Toolkit-internal behaviour (widget rendering, the event loop, slider
clamping callbacks) is outside the repository and outside the model, as
is the external binary itself.
-/

/-- Outcome of one `subprocess.run` call: the child ran to completion with
an exit status and captured stderr, or the binary was missing
(`FileNotFoundError`), or some other exception was raised. -/
inductive ProcResult where
  | completed (returncode : Int) (stderr : String)
  | fileNotFound
  | otherError (msg : String)
deriving DecidableEq

/-- `CMM_PATH`: path to the external binary (line 8 of the source). -/
def CMM_PATH : String := "ControlMyMonitor.exe"

/-- `MONITORS` registry (lines 11-14): display name to device identifier. -/
def MONITORS : List (String × String) :=
  [("Primary Monitor", "Primary"),
   ("Secondary Monitor", "Secondary")]

/-- `VCP_FEATURES` registry (lines 17-25): feature name to
(VCP code, min value, max value). -/
def VCP_FEATURES : List (String × (String × Int × Int)) :=
  [("Brightness (0-100)", ("10", 0, 100)),
   ("Contrast (0-100)", ("12", 0, 100)),
   ("Volume (0-100)", ("62", 0, 100)),
   ("Input Select", ("60", 1, 20)),
   ("Power Mode", ("D6", 1, 5)),
   ("OSD Language", ("CC", 1, 10)),
   ("Restore Factory Defaults", ("04", 1, 1))]

/-- `THEMES` registry (lines 29-35): theme name to
(brightness, contrast, background colour, foreground colour). -/
def THEMES : List (String × (Int × Int × String × String)) :=
  [("Lightest", (80, 70, "#f0f0f0", "black")),
   ("Light", (65, 58, "#cccccc", "black")),
   ("Medium", (50, 45, "#888888", "white")),
   ("Dark", (35, 33, "#444444", "white")),
   ("Darkest", (20, 20, "#1a1a1a", "white"))]

/-- `BRIGHTNESS_VCP` (line 37). -/
def BRIGHTNESS_VCP : String := "10"

/-- `CONTRAST_VCP` (line 38). -/
def CONTRAST_VCP : String := "12"

/-- The mutable session state: the tkinter variables and the two widget
attributes the handlers write.  `current_value_var` is a `StringVar`, so
it holds a string; setting it from an integer stores the decimal string. -/
structure AppState where
  monitor_var : String
  feature_var : String
  current_value_var : String
  slider_value : Int
  slider_from : Int
  slider_to : Int
  vcp_code_label : String
  status_var : String
deriving DecidableEq

/-- Truthiness of a Python string: empty is falsy. -/
def pyTruthyStr (s : String) : Bool := s != ""

/-- Truthiness of `dict.get`: `None` is falsy, a string by `pyTruthyStr`. -/
def pyTruthyOpt : Option String → Bool
  | none => false
  | some s => pyTruthyStr s

/-- Models Python `str.strip()`: drops whitespace from both ends.  Written
over the character list so that it evaluates by `decide`. -/
def pyStrip (s : String) : String :=
  ⟨((s.data.dropWhile Char.isWhitespace).reverse.dropWhile Char.isWhitespace).reverse⟩

/-- A nonempty all-digit character list read as a decimal number. -/
def parseDigits (cs : List Char) : Option Nat :=
  if cs ≠ [] ∧ cs.all Char.isDigit then
    some (cs.foldl (fun a c => 10 * a + (c.toNat - 48)) 0)
  else none

/-- Models Python `int(s)` on the strings this GUI produces: optional
surrounding whitespace, an optional sign, then decimal digits.  (Python
additionally accepts underscore digit grouping, which no value this UI
can display contains.)  Returns `none` when `int` would raise
`ValueError`. -/
def parsePyInt (s : String) : Option Int :=
  match (pyStrip s).data with
  | '-' :: rest => (parseDigits rest).map (fun n => -(n : Int))
  | '+' :: rest => (parseDigits rest).map (fun n => (n : Int))
  | cs => (parseDigits cs).map (fun n => (n : Int))

/-- Argument list built by `get_vcp_value` (lines 44-49). -/
def get_vcp_command (monitor_string vcp_code : String) : List String :=
  [CMM_PATH, "/GetValue", monitor_string, vcp_code]

/-- Argument list built by `set_vcp_value` (lines 69-75); the value is
passed as `str(value)`, its decimal string representation. -/
def set_vcp_command (monitor_string vcp_code : String) (value : Int) : List String :=
  [CMM_PATH, "/SetValue", monitor_string, vcp_code, toString value]

/-- `get_vcp_value` (lines 42-65): runs the get-value command with
`check=False` and reads the result out of the exit status.  An exit
status above 255 or below 0 is a failure: the status bar gets a message
with the raw code and the stripped stderr, and `None` is returned.
`FileNotFoundError` and any other exception are caught and mapped to
`None` with their own diagnostics.  Returns
(result, new state, invocation log). -/
def get_vcp_value (env : List String → ProcResult) (st : AppState)
    (monitor_string vcp_code : String) :
    Option Int × AppState × List (List String) :=
  match env (get_vcp_command monitor_string vcp_code) with
  | .completed rc stderr =>
    if rc > 255 || rc < 0 then
      (none,
       { st with status_var :=
           ("Error fetching value (Code " ++ toString rc ++ "): " ++ pyStrip stderr) },
       [get_vcp_command monitor_string vcp_code])
    else
      (some rc, st, [get_vcp_command monitor_string vcp_code])
  | .fileNotFound =>
    (none, { st with status_var := "Error: " ++ CMM_PATH ++ " not found." },
     [get_vcp_command monitor_string vcp_code])
  | .otherError e =>
    (none, { st with status_var := "An unexpected error occurred: " ++ e },
     [get_vcp_command monitor_string vcp_code])

/-- `set_vcp_value` (lines 67-89): runs the set-value command with
`check=True`, so a nonzero exit status raises `CalledProcessError`, which
is caught and turned into a status-bar message naming the feature and the
exit code, returning `False`.  A zero exit status returns `True`.
`FileNotFoundError` and any other exception are caught and mapped to
`False` with their own diagnostics.  Returns
(success flag, new state, invocation log). -/
def set_vcp_value (env : List String → ProcResult) (st : AppState)
    (monitor_string vcp_code : String) (value : Int) (feature_name : String) :
    Bool × AppState × List (List String) :=
  match env (set_vcp_command monitor_string vcp_code value) with
  | .completed rc _ =>
    if rc = 0 then
      (true, st, [set_vcp_command monitor_string vcp_code value])
    else
      (false,
       { st with status_var :=
           ("Command Error (Exit Code " ++ toString rc ++ "): Failed to set " ++
            feature_name ++ ". Monitor/VCP Code may not be supported.") },
       [set_vcp_command monitor_string vcp_code value])
  | .fileNotFound =>
    (false, { st with status_var := "Error: " ++ CMM_PATH ++ " not found." },
     [set_vcp_command monitor_string vcp_code value])
  | .otherError e =>
    (false, { st with status_var := "An unexpected error occurred: " ++ e },
     [set_vcp_command monitor_string vcp_code value])

/-- `update_ui_for_feature` (lines 119-130): if the selected feature name
is truthy, looks it up in `VCP_FEATURES` (a `KeyError`, modelled as
`none`, would escape), reconfigures the slider range, rewrites the VCP
code label, resets the displayed value to the feature minimum and sets
the status line.  Makes no subprocess invocation, so its log is empty. -/
def update_ui_for_feature (st : AppState) : Option AppState × List (List String) :=
  if pyTruthyStr st.feature_var then
    match VCP_FEATURES.lookup st.feature_var with
    | none => (none, [])
    | some (vcp_code, min_val, max_val) =>
      (some { st with
          slider_from := min_val,
          slider_to := max_val,
          vcp_code_label :=
            ("VCP Code: " ++ vcp_code ++ " (Range: " ++ toString min_val ++
             "-" ++ toString max_val ++ ")"),
          current_value_var := toString min_val,
          status_var :=
            ("Selected: " ++ st.feature_var ++
             ". Press \x27Get Current Value\x27 to check status.") }, [])
  else
    (some st, [])

/-- The feature-selection-changed action: the `OptionMenu` stores the new
choice into `feature_var` and then invokes its bound command
`update_ui_for_feature` (lines 232-238). -/
def on_feature_selected (st : AppState) (feature : String) :
    Option AppState × List (List String) :=
  update_ui_for_feature { st with feature_var := feature }

/-- `apply_theme` (lines 91-115): if no monitor is selected (the registry
lookup is falsy) it only sets a status message.  Otherwise it looks up
the theme (a `KeyError`, modelled as `none`, would escape) and writes
brightness then contrast unconditionally in that order.  Only when both
writes succeed does it switch the feature selector to contrast, set the
displayed value and slider to the contrast value, rerun
`update_ui_for_feature`, and write the SUCCESS status line. -/
def apply_theme (env : List String → ProcResult) (st : AppState)
    (theme_name : String) : Option AppState × List (List String) :=
  if !pyTruthyOpt (MONITORS.lookup st.monitor_var) then
    (some { st with status_var := "Error: Please select a monitor first." }, [])
  else
    match MONITORS.lookup st.monitor_var with
    | none => (some { st with status_var := "Error: Please select a monitor first." }, [])
    | some monitor_string =>
      match THEMES.lookup theme_name with
      | none => (none, [])
      | some (brightness_val, contrast_val, _, _) =>
        match set_vcp_value env st monitor_string BRIGHTNESS_VCP brightness_val "Brightness" with
        | (set_b, st1, log1) =>
          match set_vcp_value env st1 monitor_string CONTRAST_VCP contrast_val "Contrast" with
          | (set_c, st2, log2) =>
            if set_b && set_c then
              match update_ui_for_feature
                  { st2 with
                    feature_var := "Contrast (0-100)",
                    current_value_var := toString contrast_val,
                    slider_value := contrast_val } with
              | (none, _) => (none, log1 ++ log2)
              | (some st4, _) =>
                (some { st4 with status_var :=
                    ("SUCCESS: Applied \x27" ++ theme_name ++ "\x27 Theme (B:" ++
                     toString brightness_val ++ ", C:" ++ toString contrast_val ++
                     ") to " ++ st.monitor_var) }, log1 ++ log2)
            else
              (some st2, log1 ++ log2)

/-- `on_get_value_click` (lines 132-144): looks up the selected monitor
(`dict.get`, no exception) and the selected feature (`KeyError`, modelled
as `none`, would escape); if both monitor identifier and VCP code are
truthy, invokes the read operation and, when it returns a value, writes
it into the value field, the slider and the status line; when it returns
`None`, changes nothing further. -/
def on_get_value_click (env : List String → ProcResult) (st : AppState) :
    Option AppState × List (List String) :=
  match VCP_FEATURES.lookup st.feature_var with
  | none => (none, [])
  | some (vcp_code, _, _) =>
    match MONITORS.lookup st.monitor_var with
    | none => (some st, [])
    | some monitor_string =>
      if pyTruthyStr monitor_string && pyTruthyStr vcp_code then
        match get_vcp_value env st monitor_string vcp_code with
        | (some v, st1, log) =>
          (some { st1 with
              current_value_var := toString v,
              slider_value := v,
              status_var :=
                ("Current Value for " ++ st.feature_var ++ ": " ++ toString v) }, log)
        | (none, st1, log) => (some st1, log)
      else
        (some st, [])

/-- `on_set_value_click` (lines 146-160): looks up the selected monitor
and feature (the feature `KeyError`, modelled as `none`, would escape),
then parses the value field with `int(...)`; on `ValueError` it sets a
local validation status and stops with no invocation; otherwise, if
monitor identifier and VCP code are truthy, it invokes the write
operation with the parsed integer, with the first space-separated word
of the feature name as the diagnostic label.  No clamping is applied. -/
def on_set_value_click (env : List String → ProcResult) (st : AppState) :
    Option AppState × List (List String) :=
  match VCP_FEATURES.lookup st.feature_var with
  | none => (none, [])
  | some (vcp_code, _, _) =>
    match parsePyInt st.current_value_var with
    | none =>
      (some { st with status_var := "Error: Value must be an integer." }, [])
    | some new_value =>
      match MONITORS.lookup st.monitor_var with
      | none => (some st, [])
      | some monitor_string =>
        if pyTruthyStr monitor_string && pyTruthyStr vcp_code then
          match set_vcp_value env st monitor_string vcp_code new_value
              ((st.feature_var.splitOn " ").headD "") with
          | (_, st1, log) => (some st1, log)
        else
          (some st, [])

/-- The session state as built by the GUI setup code (lines 209, 230,
259, 267-273, 280-281), before the startup call to
`update_ui_for_feature` on line 286: first monitor and first feature
preselected, value field `"50"`, slider at 0 over 0-100, empty VCP label,
and the initial status line. -/
def initState : AppState where
  monitor_var := "Primary Monitor"
  feature_var := "Brightness (0-100)"
  current_value_var := "50"
  slider_value := 0
  slider_from := 0
  slider_to := 100
  vcp_code_label := ""
  status_var := "Ready. Select monitor and feature, or use a theme preset."

/-! Helper lemmas characterising the two invocation wrappers. -/

theorem get_vcp_value_log (env : List String → ProcResult) (st : AppState)
    (m c : String) :
    (get_vcp_value env st m c).2.2 = [get_vcp_command m c] := by
  unfold get_vcp_value
  cases env (get_vcp_command m c) with
  | completed rc err => dsimp only; split <;> rfl
  | fileNotFound => rfl
  | otherError e => rfl

theorem set_vcp_value_log (env : List String → ProcResult) (st : AppState)
    (m c : String) (v : Int) (f : String) :
    (set_vcp_value env st m c v f).2.2 = [set_vcp_command m c v] := by
  unfold set_vcp_value
  cases env (set_vcp_command m c v) with
  | completed rc err => dsimp only; split <;> rfl
  | fileNotFound => rfl
  | otherError e => rfl

theorem get_vcp_value_in_range (env : List String → ProcResult) (st : AppState)
    (m c : String) (rc : Int) (err : String)
    (h : env (get_vcp_command m c) = ProcResult.completed rc err)
    (h0 : 0 ≤ rc) (h255 : rc ≤ 255) :
    get_vcp_value env st m c = (some rc, st, [get_vcp_command m c]) := by
  unfold get_vcp_value
  rw [h]
  dsimp only
  rw [if_neg]
  simp only [Bool.or_eq_true, decide_eq_true_eq, not_or, not_lt]
  omega

theorem get_vcp_value_out_of_range (env : List String → ProcResult) (st : AppState)
    (m c : String) (rc : Int) (err : String)
    (h : env (get_vcp_command m c) = ProcResult.completed rc err)
    (hout : 255 < rc ∨ rc < 0) :
    get_vcp_value env st m c =
      (none,
       { st with status_var :=
           ("Error fetching value (Code " ++ toString rc ++ "): " ++ pyStrip err) },
       [get_vcp_command m c]) := by
  unfold get_vcp_value
  rw [h]
  dsimp only
  rw [if_pos]
  simp only [Bool.or_eq_true, decide_eq_true_eq]
  omega

theorem set_vcp_value_zero (env : List String → ProcResult) (st : AppState)
    (m c : String) (v : Int) (f : String) (err : String)
    (h : env (set_vcp_command m c v) = ProcResult.completed 0 err) :
    set_vcp_value env st m c v f = (true, st, [set_vcp_command m c v]) := by
  unfold set_vcp_value
  rw [h]
  dsimp only
  rw [if_pos rfl]

theorem set_vcp_value_nonzero (env : List String → ProcResult) (st : AppState)
    (m c : String) (v : Int) (f : String) (rc : Int) (err : String)
    (h : env (set_vcp_command m c v) = ProcResult.completed rc err)
    (hrc : rc ≠ 0) :
    set_vcp_value env st m c v f =
      (false,
       { st with status_var :=
           ("Command Error (Exit Code " ++ toString rc ++ "): Failed to set " ++
            f ++ ". Monitor/VCP Code may not be supported.") },
       [set_vcp_command m c v]) := by
  unfold set_vcp_value
  rw [h]
  dsimp only
  rw [if_neg hrc]

/-! Concrete environments used by the witnesses below. -/

/-- Environment in which every invocation completes with exit status 0. -/
def envAllZero : List String → ProcResult := fun _ => ProcResult.completed 0 ""

/-- Environment in which every invocation completes with exit status 42. -/
def envOk42 : List String → ProcResult := fun _ => ProcResult.completed 42 ""

/-- Environment in which every invocation completes with exit status 300. -/
def envOut300 : List String → ProcResult := fun _ => ProcResult.completed 300 "boom"

/-- Environment in which every invocation completes with exit status 5. -/
def envErr5 : List String → ProcResult := fun _ => ProcResult.completed 5 "x"

/-- Environment in which every invocation raises `FileNotFoundError`. -/
def envFNF : List String → ProcResult := fun _ => ProcResult.fileNotFound

/-- Environment in which every invocation raises a generic exception. -/
def envExc : List String → ProcResult := fun _ => ProcResult.otherError "boom"

/-- Claim C1: when the child process of `get_vcp_value` runs to completion
with exit status `rc`, the operation returns exactly `rc` if
`0 ≤ rc ≤ 255`, and otherwise returns no value and sets the status
message to the diagnostic carrying the raw exit code (and stripped
stderr). -/
theorem get_value_exit_status (env : List String → ProcResult) (st : AppState)
    (m c : String) (rc : Int) (err : String)
    (h : env (get_vcp_command m c) = ProcResult.completed rc err) :
    (0 ≤ rc ∧ rc ≤ 255 → (get_vcp_value env st m c).1 = some rc) ∧
    (255 < rc ∨ rc < 0 →
      (get_vcp_value env st m c).1 = none ∧
      (get_vcp_value env st m c).2.1.status_var =
        "Error fetching value (Code " ++ toString rc ++ "): " ++ pyStrip err) := by
  constructor
  · rintro ⟨h0, h255⟩
    rw [get_vcp_value_in_range env st m c rc err h h0 h255]
  · intro hout
    rw [get_vcp_value_out_of_range env st m c rc err h hout]
    exact ⟨rfl, rfl⟩

/-- Witness for C1 at exit statuses 42 (in range) and 300 (out of range). -/
theorem get_value_exit_status_witness :
    (get_vcp_value envOk42 initState "Primary" "10").1 = some 42 ∧
    (get_vcp_value envOut300 initState "Primary" "10").1 = none ∧
    (get_vcp_value envOut300 initState "Primary" "10").2.1.status_var =
      "Error fetching value (Code 300): boom" := by
  refine ⟨?_, ?_, ?_⟩
  · exact (get_value_exit_status envOk42 initState "Primary" "10" 42 "" rfl).1
      (by constructor <;> decide)
  · exact ((get_value_exit_status envOut300 initState "Primary" "10" 300 "boom" rfl).2
      (Or.inl (by decide))).1
  · exact (((get_value_exit_status envOut300 initState "Primary" "10" 300 "boom" rfl).2
      (Or.inl (by decide))).2).trans (by decide)

/-- Claim C3: when the child process of `set_vcp_value` runs to completion
with exit status `rc`, the operation returns `true` iff `rc = 0`; on any
nonzero `rc` it returns `false`, sets the diagnostic naming the feature
and the exit code, and leaves the displayed value (indeed the whole
session state other than the status line) unchanged. -/
theorem set_value_exit_status (env : List String → ProcResult) (st : AppState)
    (m c : String) (v : Int) (f : String) (rc : Int) (err : String)
    (h : env (set_vcp_command m c v) = ProcResult.completed rc err) :
    ((set_vcp_value env st m c v f).1 = true ↔ rc = 0) ∧
    (rc ≠ 0 →
      (set_vcp_value env st m c v f).1 = false ∧
      (set_vcp_value env st m c v f).2.1.status_var =
        "Command Error (Exit Code " ++ toString rc ++ "): Failed to set " ++
        f ++ ". Monitor/VCP Code may not be supported." ∧
      (set_vcp_value env st m c v f).2.1.current_value_var = st.current_value_var) := by
  by_cases h0 : rc = 0
  · subst h0
    rw [set_vcp_value_zero env st m c v f err h]
    exact ⟨⟨fun _ => rfl, fun _ => rfl⟩, fun hne => absurd rfl hne⟩
  · rw [set_vcp_value_nonzero env st m c v f rc err h h0]
    refine ⟨⟨fun hfalse => absurd hfalse Bool.false_ne_true, fun heq => absurd heq h0⟩,
      fun _ => ⟨rfl, rfl, rfl⟩⟩

/-- Witness for C3 at exit statuses 0 and 5. -/
theorem set_value_exit_status_witness :
    (set_vcp_value envAllZero initState "Primary" "10" 50 "Brightness").1 = true ∧
    (set_vcp_value envErr5 initState "Primary" "10" 50 "Brightness").1 = false ∧
    (set_vcp_value envErr5 initState "Primary" "10" 50 "Brightness").2.1.current_value_var
      = "50" := by
  refine ⟨?_, ?_, ?_⟩
  · exact (set_value_exit_status envAllZero initState "Primary" "10" 50 "Brightness"
      0 "" rfl).1.mpr rfl
  · exact ((set_value_exit_status envErr5 initState "Primary" "10" 50 "Brightness"
      5 "x" rfl).2 (by decide)).1
  · exact (((set_value_exit_status envErr5 initState "Primary" "10" 50 "Brightness"
      5 "x" rfl).2 (by decide)).2.2).trans rfl

/-- Claim C4: neither wrapper lets an exception escape (both are total
functions into their result types); a missing binary yields the failure
result with the distinct tool-not-found diagnostic, and any other
invocation exception yields the failure result with the generic
diagnostic. -/
theorem invocation_exceptions_handled (env : List String → ProcResult)
    (st : AppState) (m c : String) (v : Int) (f : String) :
    (env (get_vcp_command m c) = ProcResult.fileNotFound →
      (get_vcp_value env st m c).1 = none ∧
      (get_vcp_value env st m c).2.1.status_var =
        "Error: ControlMyMonitor.exe not found.") ∧
    (∀ e, env (get_vcp_command m c) = ProcResult.otherError e →
      (get_vcp_value env st m c).1 = none ∧
      (get_vcp_value env st m c).2.1.status_var =
        "An unexpected error occurred: " ++ e) ∧
    (env (set_vcp_command m c v) = ProcResult.fileNotFound →
      (set_vcp_value env st m c v f).1 = false ∧
      (set_vcp_value env st m c v f).2.1.status_var =
        "Error: ControlMyMonitor.exe not found.") ∧
    (∀ e, env (set_vcp_command m c v) = ProcResult.otherError e →
      (set_vcp_value env st m c v f).1 = false ∧
      (set_vcp_value env st m c v f).2.1.status_var =
        "An unexpected error occurred: " ++ e) := by
  refine ⟨fun h => ?_, fun e h => ?_, fun h => ?_, fun e h => ?_⟩ <;>
    first
    | (unfold get_vcp_value; rw [h]; exact ⟨rfl, rfl⟩)
    | (unfold set_vcp_value; rw [h]; exact ⟨rfl, rfl⟩)

/-- Witness for C4 with a missing binary and with a generic exception. -/
theorem invocation_exceptions_handled_witness :
    (get_vcp_value envFNF initState "Primary" "10").1 = none ∧
    (get_vcp_value envFNF initState "Primary" "10").2.1.status_var =
      "Error: ControlMyMonitor.exe not found." ∧
    (set_vcp_value envFNF initState "Primary" "10" 50 "Brightness").1 = false ∧
    (get_vcp_value envExc initState "Primary" "10").2.1.status_var =
      "An unexpected error occurred: boom" := by
  refine ⟨?_, ?_, ?_, ?_⟩
  · exact ((invocation_exceptions_handled envFNF initState "Primary" "10" 50
      "Brightness").1 rfl).1
  · exact ((invocation_exceptions_handled envFNF initState "Primary" "10" 50
      "Brightness").1 rfl).2
  · exact ((invocation_exceptions_handled envFNF initState "Primary" "10" 50
      "Brightness").2.2.1 rfl).1
  · exact ((invocation_exceptions_handled envExc initState "Primary" "10" 50
      "Brightness").2.1 "boom" rfl).2

/-- Claim C5: for every monitor identifier, VCP code and value, the read
operation invokes exactly `[tool, "/GetValue", monitor, code]` and the
write operation invokes exactly
`[tool, "/SetValue", monitor, code, decimal string of the value]`. -/
theorem command_shapes (env : List String → ProcResult) (st : AppState)
    (m c : String) (v : Int) (f : String) :
    (get_vcp_value env st m c).2.2 = [[CMM_PATH, "/GetValue", m, c]] ∧
    (set_vcp_value env st m c v f).2.2 = [[CMM_PATH, "/SetValue", m, c, toString v]] :=
  ⟨get_vcp_value_log env st m c, set_vcp_value_log env st m c v f⟩

/-- Claim C2 (behaviour the code actually has): applying the "Darkest"
theme to the preselected primary monitor with both writes succeeding
leaves the feature selector on the contrast feature and the status line
naming the theme and both values, but leaves the displayed value at "0",
not "20": the trailing `update_ui_for_feature()` call on line 113 resets
`current_value_var` to the contrast feature's declared minimum,
overwriting the contrast value stored on line 111. -/
theorem apply_theme_darkest_behavior :
    ((apply_theme envAllZero initState "Darkest").1.map AppState.feature_var
      = some "Contrast (0-100)") ∧
    ((apply_theme envAllZero initState "Darkest").1.map AppState.current_value_var
      = some "0") ∧
    ((apply_theme envAllZero initState "Darkest").1.map AppState.current_value_var
      ≠ some "20") ∧
    ((apply_theme envAllZero initState "Darkest").1.map AppState.status_var
      = some "SUCCESS: Applied \x27Darkest\x27 Theme (B:20, C:20) to Primary Monitor") := by
  refine ⟨by decide, by decide, by decide, by decide⟩

/-- Claim C7: selecting any feature present in the registry resets the
displayed value to the feature's declared minimum, rewrites the label to
show the VCP code and valid range, reconfigures the slider range, and
performs zero external invocations. -/
theorem feature_selection_spec (st : AppState) (f code : String) (mn mx : Int)
    (hf : VCP_FEATURES.lookup f = some (code, mn, mx)) :
    (on_feature_selected st f).1 =
      some { st with
        feature_var := f,
        slider_from := mn,
        slider_to := mx,
        vcp_code_label :=
          ("VCP Code: " ++ code ++ " (Range: " ++ toString mn ++ "-" ++
           toString mx ++ ")"),
        current_value_var := toString mn,
        status_var :=
          ("Selected: " ++ f ++
           ". Press \x27Get Current Value\x27 to check status.") } ∧
    (on_feature_selected st f).2 = [] := by
  have hfne : f ≠ "" := by
    rintro rfl
    rw [show VCP_FEATURES.lookup "" = none from rfl] at hf
    exact Option.noConfusion hf
  have htruthy : pyTruthyStr f = true := bne_iff_ne.mpr hfne
  unfold on_feature_selected update_ui_for_feature
  dsimp only
  rw [htruthy, if_pos rfl, hf]
  exact ⟨rfl, rfl⟩

/-- Witness for C7 at the "Power Mode" feature (minimum 1). -/
theorem feature_selection_spec_witness :
    (on_feature_selected initState "Power Mode").1 =
      some { initState with
        feature_var := "Power Mode",
        slider_from := 1,
        slider_to := 5,
        vcp_code_label := "VCP Code: D6 (Range: 1-5)",
        current_value_var := "1",
        status_var :=
          "Selected: Power Mode. Press \x27Get Current Value\x27 to check status." } ∧
    (on_feature_selected initState "Power Mode").2 = [] := by
  have h := feature_selection_spec initState "Power Mode" "D6" 1 5 rfl
  exact ⟨h.1.trans (by decide), h.2⟩

/-- Claim C9: applying any theme while the selected monitor key does not
resolve to a truthy registry identifier performs zero invocations and
only replaces the status line with the missing-selection message, leaving
every other session field unchanged. -/
theorem apply_theme_no_monitor (env : List String → ProcResult) (st : AppState)
    (theme : String)
    (hm : pyTruthyOpt (MONITORS.lookup st.monitor_var) = false) :
    apply_theme env st theme =
      (some { st with status_var := "Error: Please select a monitor first." }, []) := by
  unfold apply_theme
  rw [hm]
  rfl

/-- Witness for C9 with an unregistered monitor name and the "Darkest"
theme. -/
theorem apply_theme_no_monitor_witness :
    apply_theme envAllZero { initState with monitor_var := "Nonexistent" } "Darkest" =
      (some { initState with
        monitor_var := "Nonexistent",
        status_var := "Error: Please select a monitor first." }, []) := by
  have h := apply_theme_no_monitor envAllZero
    { initState with monitor_var := "Nonexistent" } "Darkest" (by decide)
  exact h.trans (by decide)

/-- Claim C10: with a monitor selected and the theme found, `apply_theme`
always performs exactly the brightness write followed by the contrast
write, for every environment — in particular the contrast write is
attempted even when the brightness write fails. -/
theorem apply_theme_both_writes (env : List String → ProcResult) (st : AppState)
    (theme ms : String) (b c : Int) (bg fg : String)
    (hm : MONITORS.lookup st.monitor_var = some ms) (hms : ms ≠ "")
    (ht : THEMES.lookup theme = some (b, c, bg, fg)) :
    (apply_theme env st theme).2 =
      [[CMM_PATH, "/SetValue", ms, BRIGHTNESS_VCP, toString b],
       [CMM_PATH, "/SetValue", ms, CONTRAST_VCP, toString c]] := by
  have htruthy : pyTruthyOpt (some ms) = true := by
    simp [pyTruthyOpt, pyTruthyStr, hms]
  unfold apply_theme
  rw [hm, htruthy, Bool.not_true, if_neg Bool.false_ne_true, ht]
  dsimp only
  rcases h1 : set_vcp_value env st ms BRIGHTNESS_VCP b "Brightness" with ⟨sb, st1, l1⟩
  have hl1 : l1 = [set_vcp_command ms BRIGHTNESS_VCP b] := by
    have hlog := set_vcp_value_log env st ms BRIGHTNESS_VCP b "Brightness"
    rw [h1] at hlog; exact hlog
  rcases h2 : set_vcp_value env st1 ms CONTRAST_VCP c "Contrast" with ⟨sc, st2, l2⟩
  have hl2 : l2 = [set_vcp_command ms CONTRAST_VCP c] := by
    have hlog := set_vcp_value_log env st1 ms CONTRAST_VCP c "Contrast"
    rw [h2] at hlog; exact hlog
  subst hl1 hl2
  dsimp only
  split
  · split <;> rfl
  · rfl

/-- Witness for C10 in an environment where the brightness write fails
with exit status 1 and the contrast write succeeds: both writes are still
issued, in order. -/
def envBrightnessFails : List String → ProcResult := fun cmd =>
  if cmd = set_vcp_command "Primary" "10" 20 then ProcResult.completed 1 ""
  else ProcResult.completed 0 ""

theorem apply_theme_both_writes_witness :
    (apply_theme envBrightnessFails initState "Darkest").2 =
      [["ControlMyMonitor.exe", "/SetValue", "Primary", "10", "20"],
       ["ControlMyMonitor.exe", "/SetValue", "Primary", "12", "20"]] := by
  have h := apply_theme_both_writes envBrightnessFails initState "Darkest" "Primary"
    20 20 "#1a1a1a" "white" rfl (by decide) rfl
  exact h.trans (by decide)

/-! Helper lemmas characterising the get-button handler. -/

theorem on_get_value_click_val (env : List String → ProcResult) (st : AppState)
    (ms code : String) (mn mx : Int) (rc : Int) (err : String)
    (hm : MONITORS.lookup st.monitor_var = some ms) (hms : ms ≠ "")
    (hf : VCP_FEATURES.lookup st.feature_var = some (code, mn, mx)) (hc : code ≠ "")
    (h : env (get_vcp_command ms code) = ProcResult.completed rc err)
    (h0 : 0 ≤ rc) (h255 : rc ≤ 255) :
    on_get_value_click env st =
      (some { st with
        current_value_var := toString rc,
        slider_value := rc,
        status_var :=
          ("Current Value for " ++ st.feature_var ++ ": " ++ toString rc) },
       [get_vcp_command ms code]) := by
  have hb : (pyTruthyStr ms && pyTruthyStr code) = true := by
    simp [pyTruthyStr, hms, hc]
  unfold on_get_value_click
  rw [hf]
  dsimp only
  rw [hm]
  dsimp only
  rw [hb, if_pos rfl, get_vcp_value_in_range env st ms code rc err h h0 h255]

theorem on_get_value_click_noval (env : List String → ProcResult) (st : AppState)
    (ms code : String) (mn mx : Int) (rc : Int) (err : String)
    (hm : MONITORS.lookup st.monitor_var = some ms) (hms : ms ≠ "")
    (hf : VCP_FEATURES.lookup st.feature_var = some (code, mn, mx)) (hc : code ≠ "")
    (h : env (get_vcp_command ms code) = ProcResult.completed rc err)
    (hout : 255 < rc ∨ rc < 0) :
    on_get_value_click env st =
      (some { st with status_var :=
          ("Error fetching value (Code " ++ toString rc ++ "): " ++ pyStrip err) },
       [get_vcp_command ms code]) := by
  have hb : (pyTruthyStr ms && pyTruthyStr code) = true := by
    simp [pyTruthyStr, hms, hc]
  unfold on_get_value_click
  rw [hf]
  dsimp only
  rw [hm]
  dsimp only
  rw [hb, if_pos rfl, get_vcp_value_out_of_range env st ms code rc err h hout]

/-- Claim C6: for a get action with valid monitor and feature whose child
process completes with exit status `rc`: if `0 ≤ rc ≤ 255` the displayed
value becomes exactly `rc` and the status line is updated; if `rc` is out
of that range the displayed value is unchanged; and a second get action
performed on the resulting state with another in-range exit status again
overwrites the displayed value with the newest result. -/
theorem get_click_spec (env env2 : List String → ProcResult) (st : AppState)
    (ms code : String) (mn mx : Int) (rc rc2 : Int) (err err2 : String)
    (hm : MONITORS.lookup st.monitor_var = some ms) (hms : ms ≠ "")
    (hf : VCP_FEATURES.lookup st.feature_var = some (code, mn, mx)) (hc : code ≠ "")
    (h : env (get_vcp_command ms code) = ProcResult.completed rc err)
    (h2 : env2 (get_vcp_command ms code) = ProcResult.completed rc2 err2) :
    (0 ≤ rc ∧ rc ≤ 255 → ∃ st1,
      (on_get_value_click env st).1 = some st1 ∧
      st1.current_value_var = toString rc ∧
      st1.status_var = "Current Value for " ++ st.feature_var ++ ": " ++ toString rc ∧
      (0 ≤ rc2 ∧ rc2 ≤ 255 → ∃ st2,
        (on_get_value_click env2 st1).1 = some st2 ∧
        st2.current_value_var = toString rc2)) ∧
    (255 < rc ∨ rc < 0 → ∃ st1,
      (on_get_value_click env st).1 = some st1 ∧
      st1.current_value_var = st.current_value_var) := by
  constructor
  · rintro ⟨h0, h255⟩
    rw [on_get_value_click_val env st ms code mn mx rc err hm hms hf hc h h0 h255]
    refine ⟨_, rfl, rfl, rfl, ?_⟩
    rintro ⟨h20, h2255⟩
    rw [on_get_value_click_val env2
      { st with
        current_value_var := toString rc,
        slider_value := rc,
        status_var :=
          ("Current Value for " ++ st.feature_var ++ ": " ++ toString rc) }
      ms code mn mx rc2 err2 hm hms hf hc h2 h20 h2255]
    exact ⟨_, rfl, rfl⟩
  · intro hout
    rw [on_get_value_click_noval env st ms code mn mx rc err hm hms hf hc h hout]
    exact ⟨_, rfl, rfl⟩

/-- Environment in which every invocation completes with exit status 9. -/
def envOk9 : List String → ProcResult := fun _ => ProcResult.completed 9 ""

/-- Witness for C6: two consecutive gets on the initial state with exit
statuses 7 then 9 leave the displayed value at "9". -/
def envOk7 : List String → ProcResult := fun _ => ProcResult.completed 7 ""

theorem get_click_spec_witness :
    ∃ st1, (on_get_value_click envOk7 initState).1 = some st1 ∧
      st1.current_value_var = "7" ∧
      ∃ st2, (on_get_value_click envOk9 st1).1 = some st2 ∧
        st2.current_value_var = "9" := by
  have h := (get_click_spec envOk7 envOk9 initState "Primary" "10" 0 100 7 9 "" ""
    rfl (by decide) rfl (by decide) rfl rfl).1 ⟨by decide, by decide⟩
  obtain ⟨st1, hs, hv, _, hnext⟩ := h
  obtain ⟨st2, hs2, hv2⟩ := hnext ⟨by decide, by decide⟩
  exact ⟨st1, hs, hv, st2, hs2, hv2⟩

/-- Claim C8: for a set action with valid monitor and feature: when the
value field does not parse as an integer, the handler sets the local
validation status and performs zero invocations; when it parses to `n`,
the write operation is invoked with exactly `n` — whatever `n` is, so no
clamping against the feature's declared range occurs. -/
theorem set_click_spec (env : List String → ProcResult) (st : AppState)
    (ms code : String) (mn mx : Int)
    (hm : MONITORS.lookup st.monitor_var = some ms) (hms : ms ≠ "")
    (hf : VCP_FEATURES.lookup st.feature_var = some (code, mn, mx)) (hc : code ≠ "") :
    (parsePyInt st.current_value_var = none →
      on_set_value_click env st =
        (some { st with status_var := "Error: Value must be an integer." }, [])) ∧
    (∀ n, parsePyInt st.current_value_var = some n →
      (on_set_value_click env st).2 = [[CMM_PATH, "/SetValue", ms, code, toString n]]) := by
  have hb : (pyTruthyStr ms && pyTruthyStr code) = true := by
    simp [pyTruthyStr, hms, hc]
  constructor
  · intro hp
    unfold on_set_value_click
    rw [hf]
    dsimp only
    rw [hp]
  · intro n hp
    unfold on_set_value_click
    rw [hf]
    dsimp only
    rw [hp]
    dsimp only
    rw [hm]
    dsimp only
    rw [hb, if_pos rfl]
    rcases hsv : set_vcp_value env st ms code n ((st.feature_var.splitOn " ").headD "")
      with ⟨ok, st1, l⟩
    have hlog := set_vcp_value_log env st ms code n ((st.feature_var.splitOn " ").headD "")
    rw [hsv] at hlog
    exact hlog

/-- Witness for C8: the value "abc" produces the validation status and no
invocation, while the out-of-range value "999" is sent to the brightness
feature unclamped. -/
theorem set_click_spec_witness :
    on_set_value_click envAllZero { initState with current_value_var := "abc" } =
      (some { initState with
        current_value_var := "abc",
        status_var := "Error: Value must be an integer." }, []) ∧
    (on_set_value_click envAllZero { initState with current_value_var := "999" }).2 =
      [["ControlMyMonitor.exe", "/SetValue", "Primary", "10", "999"]] := by
  constructor
  · have h := (set_click_spec envAllZero { initState with current_value_var := "abc" }
      "Primary" "10" 0 100 rfl (by decide) rfl (by decide)).1 (by decide)
    exact h.trans (by decide)
  · have h := (set_click_spec envAllZero { initState with current_value_var := "999" }
      "Primary" "10" 0 100 rfl (by decide) rfl (by decide)).2 999 (by decide)
    exact h.trans (by decide)
